import Mathlib

/-!
# Projector windows (`UI/window-projector.cpp`)

A shallow embedding of `OBSProjector`.  The widget base class is a record of
the toolkit properties the code reads and writes; the compositor, the main
window and the multiview collaborator are observed through the list of calls
an operation makes (a `Run`).  A null pointer is `none`.
-/

namespace OBS

/-! ## Toolkit values -/

/-- The wrap of an integer into the range of a 32-bit `int`. -/
def wrapInt (v : Int) : Int := (v + 2147483648) % 4294967296 - 2147483648

/-- The range of an `int`. -/
def isInt32 (v : Int) : Prop := -2147483648 ≤ v ∧ v ≤ 2147483647

instance (v : Int) : Decidable (isInt32 v) := by unfold isInt32; infer_instance

/-- A point with `int` coordinates, as `QPoint`. -/
structure QPoint where
  xp : Int
  yp : Int
  deriving DecidableEq, Repr

namespace QPoint

/-- The operator `+` on points: componentwise `int` addition. -/
def add (a b : QPoint) : QPoint := ⟨wrapInt (a.xp + b.xp), wrapInt (a.yp + b.yp)⟩

/-- The operator `-` on points: componentwise `int` subtraction. -/
def sub (a b : QPoint) : QPoint := ⟨wrapInt (a.xp - b.xp), wrapInt (a.yp - b.yp)⟩

instance : Add QPoint := ⟨add⟩
instance : Sub QPoint := ⟨sub⟩

/-- Both coordinates are representable `int` values. -/
def inRange (a : QPoint) : Prop := isInt32 a.xp ∧ isInt32 a.yp

instance (a : QPoint) : Decidable a.inRange := by unfold inRange; infer_instance

end QPoint

/-- A rectangle stored by its corners, as `QRect` (`x2 = x1 + width - 1`). -/
structure QRect where
  x1 : Int
  y1 : Int
  x2 : Int
  y2 : Int
  deriving DecidableEq, Repr

namespace QRect

/-- The default-constructed rectangle `QRect()`. -/
def null : QRect := ⟨0, 0, -1, -1⟩

/-- The rectangle with top-left corner `(x, y)` and the given size. -/
def ofSize (x y w h : Int) : QRect := ⟨x, y, x + w - 1, y + h - 1⟩

def width (r : QRect) : Int := r.x2 - r.x1 + 1

def height (r : QRect) : Int := r.y2 - r.y1 + 1

/-- The test `isNull()`: width and height are both zero. -/
def isNull (r : QRect) : Bool := r.x2 == r.x1 - 1 && r.y2 == r.y1 - 1

def topLeft (r : QRect) : QPoint := ⟨r.x1, r.y1⟩

/-- The call `setSize`: the top-left corner stays. -/
def setSize (r : QRect) (w h : Int) : QRect := { r with x2 := r.x1 + w - 1, y2 := r.y1 + h - 1 }

/-- The call `moveTo`: the size stays. -/
def moveTo (r : QRect) (p : QPoint) : QRect :=
  { x1 := p.xp, y1 := p.yp, x2 := r.x2 + (p.xp - r.x1), y2 := r.y2 + (p.yp - r.y1) }

end QRect

/-- A monitor as listed by `QGuiApplication::screens()`. -/
structure QScreen where
  name : Nat
  geometry : QRect
  deriving DecidableEq, Repr

/-- The bits of `Qt::WindowStates` the code depends on. -/
structure WindowState where
  minimized : Bool
  maximized : Bool
  fullScreen : Bool
  deriving DecidableEq, Repr

inductive CursorShape
  | ArrowCursor
  | BlankCursor
  | SizeAllCursor
  deriving DecidableEq, Repr

namespace Qt

def Window : Nat := 0x00000001
def FramelessWindowHint : Nat := 0x00000800
def WindowStaysOnTopHint : Nat := 0x00040000

def LeftButton : Nat := 0x00000001
def RightButton : Nat := 0x00000002

end Qt

/-- The widget properties of the base class that the projector code touches.
`setGeometry`, `resize` and `move` store what they are given, the `show*`
calls change the window state only, `setWindowFlags` lets the window system
place the content box anew, and `pos()` is the top-left corner of the
geometry (frame margins are not modelled). -/
structure QWidget where
  crect : QRect
  windowState : WindowState
  windowFlags : Nat
  cursor : CursorShape
  windowTitle : String
  visible : Bool

namespace QWidget

def geometry (w : QWidget) : QRect := w.crect

def setGeometry (w : QWidget) (r : QRect) : QWidget := { w with crect := r }

def resize (w : QWidget) (cx cy : Int) : QWidget := { w with crect := w.crect.setSize cx cy }

def size (w : QWidget) : Int × Int := (w.crect.width, w.crect.height)

def pos (w : QWidget) : QPoint := w.crect.topLeft

def move (w : QWidget) (p : QPoint) : QWidget := { w with crect := w.crect.moveTo p }

def isFullScreen (w : QWidget) : Bool := w.windowState.fullScreen

def isMaximized (w : QWidget) : Bool := w.windowState.maximized

def showFullScreen (w : QWidget) : QWidget :=
  { w with windowState := { minimized := false, maximized := false, fullScreen := true },
           visible := true }

def showNormal (w : QWidget) : QWidget :=
  { w with windowState := { minimized := false, maximized := false, fullScreen := false },
           visible := true }

def show_ (w : QWidget) : QWidget := { w with visible := true }

/-- The call `setWindowFlags`: the flags are replaced, the widget is hidden
until it is shown again, and the window is created anew, so the content box
ends up where the window system puts it for the new flags (`place`, from the
new flags and the old box). -/
def setWindowFlags (w : QWidget) (place : Nat → QRect → QRect) (flags : Nat) : QWidget :=
  { w with windowFlags := flags, visible := false, crect := place flags w.crect }

def setCursor (w : QWidget) (c : CursorShape) : QWidget := { w with cursor := c }

def setWindowTitle (w : QWidget) (t : String) : QWidget := { w with windowTitle := t }

end QWidget

/-! ## Compositor and application values -/

/-- An `OBSSource`: a strong reference to a source, or null. -/
abbrev OBSSource := Option Nat

/-- An `OBSWeakSource`: a weak reference to a source, or null. -/
abbrev OBSWeakSource := Option Nat

inductive ProjectorType
  | Source
  | Scene
  | Preview
  | StudioProgram
  | Multiview
  deriving DecidableEq, Repr

/-- The keys of the `BasicWindow` section of the global configuration that the
projector reads. -/
structure Config where
  ProjectorAlwaysOnTop : Bool
  HideProjectorFrame : Bool
  HideProjectorCursor : Bool
  MultiviewLayout : Int
  MultiviewDrawNames : Bool
  MultiviewDrawAreas : Bool
  MultiviewMouseSwitch : Bool
  TransitionOnDoubleClick : Bool

/-- What the projector reads from its collaborators during one operation. -/
structure Env where
  /-- The global configuration, `GetGlobalConfig()`. -/
  config : Config
  /-- Where the window system puts the content box of a window whose flags are
  replaced by `setWindowFlags`: from the new flags and the box before. -/
  placeContentBox : Nat → QRect → QRect
  /-- The screen list, `QGuiApplication::screens()`. -/
  screens : List QScreen
  /-- Whether a source still exists, so that a weak reference to it resolves. -/
  alive : Nat → Bool
  /-- The result of `obs_source_get_name`, already converted by `QT_UTF8`. -/
  sourceName : OBSSource → String
  /-- The results of `obs_source_get_width` and `obs_source_get_height`. -/
  sourceWidth : OBSSource → Nat
  sourceHeight : OBSSource → Nat
  /-- The fields `base_width` and `base_height` written by `obs_get_video_info`. -/
  base_width : Nat
  base_height : Nat
  /-- The locale lookup `QTStr`. -/
  QTStr : String → String
  /-- The offsets `x`, `y` that `GetScaleAndCenterPos` (display-helpers.hpp)
  writes for a target size and a window size. -/
  scaleAndCenterPos : Nat → Nat → Int → Int → Int × Int
  /-- The result of `OBSBasic::IsPreviewProgramMode`. -/
  previewProgramMode : Bool
  /-- The result of `OBSBasic::GetCurrentSceneSource`. -/
  currentSceneSource : OBSSource
  /-- The result of `OBSBasic::GetProgramSource`. -/
  programSource : OBSSource
  /-- The result of `Multiview::GetSourceByPosition` on the multiview object
  with the given address. -/
  sourceByPosition : Nat → Int → Int → OBSSource

/-- The helper `OBSGetWeakRef`. -/
def OBSGetWeakRef (source : OBSSource) : OBSWeakSource := source

/-- The helper `OBSGetStrongRef`: null when the reference is null or the source is gone. -/
def OBSGetStrongRef (env : Env) (weak : OBSWeakSource) : OBSSource :=
  match weak with
  | none => none
  | some s => if env.alive s then some s else none

/-- An entry of the context menu built by a right click. -/
inductive MenuItem
  | Fullscreen
  | Windowed
  | ResizeProjectorWindowToContent
  | Resolution (width height : Nat)
  | Scale (percent : Nat)
  | ResizeProjectorWindowCustom
  | Separator
  | HideProjectorFrame (checked : Bool)
  | AlwaysOnTop (checked : Bool)
  | Close
  deriving DecidableEq, Repr

/-- A call made from the projector into the compositor, the application, the
main window or the multiview object.  Source arguments are logged as passed,
null included; a method call logs its receiver. -/
inductive Call
  | obs_source_get_signal_handler (source : OBSSource)
  | destroyedSignal_Connect
  | obs_source_get_name (source : OBSSource)
  | obs_source_get_width (source : OBSSource)
  | obs_source_get_height (source : OBSSource)
  | obs_source_inc_showing (source : OBSSource)
  | obs_source_dec_showing (source : OBSSource)
  | obs_source_video_render (source : OBSSource)
  | obs_render_main_texture
  | obs_get_video_info
  | obs_display_remove_draw_callback (isMultiview : Bool)
  | GetScaleAndCenterPos (targetCX targetCY : Nat) (cx cy : Int)
  | startRegion (targetCX targetCY : Nat)
  | endRegion
  | IncrementSleepInhibition
  | DecrementSleepInhibition
  | Multiview_new (address : Nat)
  | Multiview_delete (multiview : Option Nat)
  | Multiview_Update (multiview : Option Nat) (layout : Int) (drawLabel drawSafeArea : Bool)
  | Multiview_Render (multiview : Option Nat) (cx cy : Nat)
  | Multiview_GetSourceByPosition (multiview : Option Nat) (x y : Int)
  | TransitionToScene (scene : OBSSource)
  | SetCurrentScene (scene : OBSSource) (force : Bool)
  | obs_enter_graphics
  | obs_leave_graphics
  | popup_exec (items : List MenuItem)
  | baseMousePressEvent
  | baseMouseDoubleClickEvent
  deriving DecidableEq, Repr

/-- Why an operation cannot go on: the code has no defined behaviour there. -/
inductive Fault
  | screenIndexOutOfRange
  | nullMultiview
  deriving DecidableEq, Repr

/-- The result of an operation: the state it leaves, the calls it made in
order, and the fault that stopped it, if any. -/
structure Run (σ : Type) where
  state : σ
  calls : List Call
  fault : Option Fault

/-- The file-level statics. -/
structure Globals where
  multiviewProjectors : List Nat
  updatingMultiview : Bool
  mouseSwitching : Bool
  transitionOnDoubleClick : Bool

/-- A mouse event: the button that caused it, the buttons held, the position. -/
structure QMouseEvent where
  button : Nat
  buttons : Nat
  pos : QPoint

/-! ## The projector -/

/-- The fields of `OBSProjector` on top of its widget base class. -/
structure OBSProjector where
  widget : QWidget
  weakSource : OBSWeakSource
  hideFrame : Bool
  isAlwaysOnTop : Bool
  isAlwaysOnTopOverridden : Bool
  savedMonitor : Int
  type : ProjectorType
  multiview : Option Nat
  ready : Bool
  prevGeometry : QRect
  screen : Option QScreen
  onMousePressWindowPosition : QPoint
  onMousePressMouseOffset : QPoint

namespace OBSProjector

def GetSource (env : Env) (p : OBSProjector) : OBSSource := OBSGetStrongRef env p.weakSource

def GetProjectorType (p : OBSProjector) : ProjectorType := p.type

def GetMonitor (p : OBSProjector) : Int := p.savedMonitor

def SetHideCursor (env : Env) (p : OBSProjector) : OBSProjector :=
  if p.savedMonitor = -1 then p
  else
    let hideCursor := env.config.HideProjectorCursor
    if hideCursor && p.type != ProjectorType.Multiview then
      { p with widget := p.widget.setCursor CursorShape.BlankCursor }
    else
      { p with widget := p.widget.setCursor CursorShape.ArrowCursor }

/-- The lookup `QGuiApplication::screens()[monitor]`; the list has no element
outside `0 .. length - 1`. -/
def screenAt (screens : List QScreen) (monitor : Int) : Option QScreen :=
  if monitor < 0 then none else screens.get? monitor.toNat

def SetMonitor (env : Env) (p : OBSProjector) (monitor : Int) : Option OBSProjector :=
  let p := { p with savedMonitor := monitor }
  match screenAt env.screens monitor with
  | none => none
  | some screen =>
    let p := { p with screen := some screen }
    let p := { p with widget := p.widget.setGeometry screen.geometry }
    let p := { p with widget := p.widget.showFullScreen }
    some (SetHideCursor env p)

def SetHideFrame (env : Env) (p : OBSProjector) (hideFrame : Bool) : OBSProjector :=
  let p := { p with hideFrame := hideFrame }
  let contentBox := p.widget.geometry
  let p :=
    if hideFrame then
      { p with widget := p.widget.setWindowFlags env.placeContentBox Qt.FramelessWindowHint }
    else
      let flags := p.widget.windowFlags ^^^ (p.widget.windowFlags &&& Qt.FramelessWindowHint)
      { p with widget := p.widget.setWindowFlags env.placeContentBox flags }
  let p := { p with widget := p.widget.setGeometry contentBox }
  { p with widget := p.widget.showNormal }

def UpdateProjectorTitle (env : Env) (p : OBSProjector) (name : String) : OBSProjector :=
  let window := p.GetMonitor == -1
  let title :=
    match p.type with
    | ProjectorType.Scene =>
      if !window then env.QTStr "SceneProjector" ++ " - " ++ name
      else env.QTStr "SceneWindow" ++ " - " ++ name
    | ProjectorType.Source =>
      if !window then env.QTStr "SourceProjector" ++ " - " ++ name
      else env.QTStr "SourceWindow" ++ " - " ++ name
    | ProjectorType.Preview =>
      if !window then env.QTStr "PreviewProjector" else env.QTStr "PreviewWindow"
    | ProjectorType.StudioProgram =>
      if !window then env.QTStr "StudioProgramProjector" else env.QTStr "StudioProgramWindow"
    | ProjectorType.Multiview =>
      if !window then env.QTStr "MultiviewProjector" else env.QTStr "MultiviewWindowed"
  { p with widget := p.widget.setWindowTitle title }

/-- The slot `OpenFullScreenProjector`; `monitor` is the property of the menu
action that sent the signal. -/
def OpenFullScreenProjector (env : Env) (p : OBSProjector) (monitor : Int) : Run OBSProjector :=
  let p := if !p.widget.isFullScreen then { p with prevGeometry := p.widget.geometry } else p
  match SetMonitor env p monitor with
  | none => { state := { p with savedMonitor := monitor }, calls := [],
              fault := some Fault.screenIndexOutOfRange }
  | some p =>
    let source := p.GetSource env
    let p := UpdateProjectorTitle env p (env.sourceName source)
    { state := p, calls := [Call.obs_source_get_name source], fault := none }

def OpenWindowedProjector (env : Env) (p : OBSProjector) : Run OBSProjector :=
  let p := { p with widget := p.widget.showFullScreen }
  let p := { p with widget := p.widget.showNormal }
  let p := { p with widget := p.widget.setCursor CursorShape.ArrowCursor }
  let p := { p with widget :=
    if !p.prevGeometry.isNull then p.widget.setGeometry p.prevGeometry
    else p.widget.resize 480 270 }
  let p := { p with savedMonitor := -1 }
  let source := p.GetSource env
  let p := UpdateProjectorTitle env p (env.sourceName source)
  let p := { p with screen := none }
  { state := p, calls := [Call.obs_source_get_name source], fault := none }

def mouseMoveEvent (p : OBSProjector) (event : QMouseEvent) : OBSProjector :=
  if event.buttons &&& Qt.LeftButton ≠ 0 then
    let diff := (p.widget.pos + event.pos) -
      (p.onMousePressWindowPosition + p.onMousePressMouseOffset)
    let newpos := p.onMousePressWindowPosition + diff
    let p := { p with widget := p.widget.setCursor CursorShape.SizeAllCursor }
    { p with widget := p.widget.move newpos }
  else p

def GetTargetSize (env : Env) (p : OBSProjector) : Run (Nat × Nat) :=
  let source := p.GetSource env
  if source.isSome then
    { state := (max (env.sourceWidth source) 1, max (env.sourceHeight source) 1),
      calls := [Call.obs_source_get_width source, Call.obs_source_get_height source],
      fault := none }
  else
    { state := (env.base_width, env.base_height), calls := [Call.obs_get_video_info],
      fault := none }

def ResizeToContent (env : Env) (p : OBSProjector) : Run OBSProjector :=
  let source := p.GetSource env
  let target : Nat × Nat :=
    if source.isSome then (max (env.sourceWidth source) 1, max (env.sourceHeight source) 1)
    else (env.base_width, env.base_height)
  let calls1 :=
    if source.isSome then [Call.obs_source_get_width source, Call.obs_source_get_height source]
    else [Call.obs_get_video_info]
  let size := p.widget.size
  let xy := env.scaleAndCenterPos target.1 target.2 size.1 size.2
  let newX := size.1 - xy.1 * 2
  let newY := size.2 - xy.2 * 2
  { state := { p with widget := p.widget.resize newX newY },
    calls := calls1 ++ [Call.GetScaleAndCenterPos target.1 target.2 size.1 size.2],
    fault := none }

/-- The draw callback of a projector that is not a multiview.  The region
arguments derived from the floating-point scale are not part of the logged
`startRegion` call. -/
def OBSRender (env : Env) (window : OBSProjector) (cx cy : Nat) : Run OBSProjector :=
  if !window.ready then { state := window, calls := [], fault := none }
  else
    let source := window.GetSource env
    let target : Nat × Nat :=
      if source.isSome then (max (env.sourceWidth source) 1, max (env.sourceHeight source) 1)
      else (env.base_width, env.base_height)
    let calls1 :=
      if source.isSome then [Call.obs_source_get_width source, Call.obs_source_get_height source]
      else [Call.obs_get_video_info]
    let calls2 := [Call.GetScaleAndCenterPos target.1 target.2 cx cy,
                   Call.startRegion target.1 target.2]
    let switched : OBSSource × OBSProjector × List Call :=
      if window.type = ProjectorType.Preview ∧ env.previewProgramMode = true then
        let curSource := env.currentSceneSource
        if source ≠ curSource then
          (curSource, { window with weakSource := OBSGetWeakRef curSource },
            [Call.obs_source_dec_showing source, Call.obs_source_inc_showing curSource])
        else (source, window, [])
      else if window.type = ProjectorType.Preview ∧ env.previewProgramMode = false then
        (source, { window with weakSource := none }, [])
      else (source, window, [])
    let source := switched.1
    let calls4 :=
      if source.isSome then [Call.obs_source_video_render source]
      else [Call.obs_render_main_texture]
    { state := switched.2.1,
      calls := calls1 ++ calls2 ++ switched.2.2 ++ calls4 ++ [Call.endRegion],
      fault := none }

/-- The draw callback of a multiview projector. -/
def OBSRenderMultiview (g : Globals) (window : OBSProjector) (cx cy : Nat) : Run Unit :=
  if g.updatingMultiview || !window.ready then { state := (), calls := [], fault := none }
  else
    { state := (), calls := [Call.Multiview_Render window.multiview cx cy],
      fault := if window.multiview.isSome then none else some Fault.nullMultiview }

def UpdateMultiview (env : Env) (g : Globals) (p : OBSProjector) : Run Globals :=
  let multiviewLayout := env.config.MultiviewLayout
  let drawLabel := env.config.MultiviewDrawNames
  let drawSafeArea := env.config.MultiviewDrawAreas
  let g := { g with mouseSwitching := env.config.MultiviewMouseSwitch }
  let g := { g with transitionOnDoubleClick := env.config.TransitionOnDoubleClick }
  { state := g,
    calls := [Call.Multiview_Update p.multiview multiviewLayout drawLabel drawSafeArea],
    fault := if p.multiview.isSome then none else some Fault.nullMultiview }

/-- One pass of the loop in `UpdateMultiviewProjectors`: the projector whose
`UpdateMultiview` ran, and the statics when that call began and ended. -/
structure UpdateStep where
  projector : Nat
  before : Globals
  after : Globals

/-- The loop `for (auto &projector : multiviewProjectors)` with the history of
its passes; `deref` reads the projector at an address. -/
def updateEach (env : Env) (deref : Nat → OBSProjector) :
    List Nat → Globals → Run Globals × List UpdateStep
  | [], g => ({ state := g, calls := [], fault := none }, [])
  | projector :: rest, g =>
    let r := UpdateMultiview env g (deref projector)
    let step : UpdateStep := { projector := projector, before := g, after := r.state }
    match r.fault with
    | some f => ({ state := r.state, calls := r.calls, fault := some f }, [step])
    | none =>
      let r2 := updateEach env deref rest r.state
      ({ state := r2.1.state, calls := r.calls ++ r2.1.calls, fault := r2.1.fault },
        step :: r2.2)

def UpdateMultiviewProjectors (env : Env) (deref : Nat → OBSProjector) (g : Globals) :
    Run Globals × List UpdateStep :=
  let enter := [Call.obs_enter_graphics, Call.obs_leave_graphics]
  let g := { g with updatingMultiview := true }
  let r := updateEach env deref g.multiviewProjectors g
  match r.1.fault with
  | some f => ({ state := r.1.state, calls := enter ++ r.1.calls, fault := some f }, r.2)
  | none =>
    ({ state := { r.1.state with updatingMultiview := false },
       calls := enter ++ r.1.calls ++ enter, fault := none }, r.2)

def mouseDoubleClickEvent (env : Env) (g : Globals) (p : OBSProjector) (event : QMouseEvent) :
    Run Unit :=
  let base := [Call.baseMouseDoubleClickEvent]
  if !g.mouseSwitching then { state := (), calls := base, fault := none }
  else if !g.transitionOnDoubleClick then { state := (), calls := base, fault := none }
  else if !env.previewProgramMode then { state := (), calls := base, fault := none }
  else if event.button = Qt.LeftButton then
    let pos := event.pos
    let calls := base ++ [Call.Multiview_GetSourceByPosition p.multiview pos.xp pos.yp]
    match p.multiview with
    | none => { state := (), calls := calls, fault := some Fault.nullMultiview }
    | some mv =>
      let src := env.sourceByPosition mv pos.xp pos.yp
      if src.isNone then { state := (), calls := calls, fault := none }
      else if env.programSource ≠ src then
        { state := (), calls := calls ++ [Call.TransitionToScene src], fault := none }
      else { state := (), calls := calls, fault := none }
  else { state := (), calls := base, fault := none }

/-- The entries of the context menu; the resize submenu is listed in place. -/
def contextMenu (p : OBSProjector) : List MenuItem :=
  let resizeWindowMenu :=
    [MenuItem.Resolution 1280 720, MenuItem.Resolution 1920 1080,
     MenuItem.Resolution 2560 1440, MenuItem.Resolution 3840 2160, MenuItem.Separator,
     MenuItem.Scale 50, MenuItem.Scale 75, MenuItem.Scale 100, MenuItem.Scale 125,
     MenuItem.Scale 150, MenuItem.Scale 200, MenuItem.Separator,
     MenuItem.ResizeProjectorWindowCustom]
  let sizing :=
    if p.GetMonitor > -1 then [MenuItem.Windowed]
    else if !p.widget.isMaximized then
      MenuItem.ResizeProjectorWindowToContent :: resizeWindowMenu
    else []
  [MenuItem.Fullscreen] ++ sizing ++
    [MenuItem.HideProjectorFrame p.hideFrame, MenuItem.AlwaysOnTop p.isAlwaysOnTop,
     MenuItem.Close]

def mousePressEvent (env : Env) (g : Globals) (p : OBSProjector) (event : QMouseEvent) :
    Run OBSProjector :=
  let base := [Call.baseMousePressEvent]
  if event.button = Qt.RightButton then
    { state := p, calls := base ++ [Call.popup_exec (contextMenu p)], fault := none }
  else if event.button = Qt.LeftButton then
    let p := { p with onMousePressWindowPosition := p.widget.pos }
    let p := { p with onMousePressMouseOffset := event.pos }
    if p.type ≠ ProjectorType.Multiview then { state := p, calls := base, fault := none }
    else if !g.mouseSwitching then { state := p, calls := base, fault := none }
    else
      let pos := event.pos
      let calls := base ++ [Call.Multiview_GetSourceByPosition p.multiview pos.xp pos.yp]
      match p.multiview with
      | none => { state := p, calls := calls, fault := some Fault.nullMultiview }
      | some mv =>
        let src := env.sourceByPosition mv pos.xp pos.yp
        if src.isNone then { state := p, calls := calls, fault := none }
        else if env.currentSceneSource ≠ src then
          { state := p, calls := calls ++ [Call.SetCurrentScene src false], fault := none }
        else { state := p, calls := calls, fault := none }
  else { state := p, calls := base, fault := none }

/-- The constructor.  `widget` is the widget as the base-class constructor
left it, `this` the address of the new projector and `newMultiview` the
address `new Multiview()` returns.  Toolkit calls that only set attributes,
icons, shortcuts and signal connections are not modelled. -/
def ctor (env : Env) (g : Globals) (this : Nat) (widget : QWidget) (newMultiview : Nat)
    (source_ : OBSSource) (monitor : Int) (type_ : ProjectorType) :
    Run (Globals × OBSProjector) :=
  let p : OBSProjector :=
    { widget := widget, weakSource := OBSGetWeakRef source_, hideFrame := false,
      isAlwaysOnTop := false, isAlwaysOnTopOverridden := false, savedMonitor := -1,
      type := ProjectorType.Source, multiview := none, ready := false,
      prevGeometry := QRect.null, screen := none, onMousePressWindowPosition := ⟨0, 0⟩,
      onMousePressMouseOffset := ⟨0, 0⟩ }
  let source := p.GetSource env
  let calls := [Call.obs_source_get_signal_handler source, Call.destroyedSignal_Connect]
  let p := { p with isAlwaysOnTop := env.config.ProjectorAlwaysOnTop }
  let p := { p with widget :=
    if p.isAlwaysOnTop then
      p.widget.setWindowFlags env.placeContentBox Qt.WindowStaysOnTopHint
    else p.widget }
  let p := { p with hideFrame := env.config.HideProjectorFrame }
  let p := { p with widget :=
    if p.hideFrame then
      p.widget.setWindowFlags env.placeContentBox Qt.FramelessWindowHint
    else p.widget }
  let p := { p with type := type_ }
  let placed : Option OBSProjector :=
    if monitor = -1 then some { p with widget := p.widget.resize 480 270 }
    else SetMonitor env p monitor
  match placed with
  | none => { state := (g, { p with savedMonitor := monitor }), calls := calls,
              fault := some Fault.screenIndexOutOfRange }
  | some p =>
    let p := UpdateProjectorTitle env p (env.sourceName source)
    let calls := calls ++ [Call.obs_source_get_name source]
    let mv : Run (Globals × OBSProjector) :=
      if p.type = ProjectorType.Multiview then
        let p := { p with multiview := some newMultiview }
        let r := UpdateMultiview env g p
        { state := ({ r.state with
                      multiviewProjectors := r.state.multiviewProjectors ++ [this] }, p),
          calls := Call.Multiview_new newMultiview :: r.calls, fault := r.fault }
      else { state := (g, p), calls := [], fault := none }
    match mv.fault with
    | some f => { state := mv.state, calls := calls ++ mv.calls, fault := some f }
    | none =>
      let g := mv.state.1
      let p := mv.state.2
      let calls := calls ++ mv.calls ++ [Call.IncrementSleepInhibition]
      let calls := calls ++ (if source.isSome then [Call.obs_source_inc_showing source] else [])
      let p := { p with ready := true }
      let p := { p with widget := p.widget.show_ }
      { state := (g, p), calls := calls, fault := none }

/-- The destructor; it leaves the statics. -/
def dtor (env : Env) (g : Globals) (this : Nat) (p : OBSProjector) : Run Globals :=
  let isMultiview := p.type == ProjectorType.Multiview
  let calls := [Call.obs_display_remove_draw_callback isMultiview]
  let source := p.GetSource env
  let calls := calls ++ (if source.isSome then [Call.obs_source_dec_showing source] else [])
  let calls := calls ++ (if isMultiview then [Call.Multiview_delete p.multiview] else [])
  let g :=
    if isMultiview then
      { g with multiviewProjectors := g.multiviewProjectors.filter (fun q => q != this) }
    else g
  { state := g, calls := calls ++ [Call.DecrementSleepInhibition], fault := none }

end OBSProjector

/-! ## Sequences of operations -/

/-- A run of `OpenFullScreenProjector` slots, one per monitor in the list. -/
def openFullScreenEach (env : Env) : List Int → OBSProjector → Run OBSProjector
  | [], p => { state := p, calls := [], fault := none }
  | monitor :: rest, p =>
    let r := p.OpenFullScreenProjector env monitor
    match r.fault with
    | some f => { state := r.state, calls := r.calls, fault := some f }
    | none =>
      let r2 := openFullScreenEach env rest r.state
      { state := r2.state, calls := r.calls ++ r2.calls, fault := r2.fault }

/-- One frame: what the main window answers while the frame is drawn, and the
size of the display. -/
structure Frame where
  env : Env
  cx : Nat
  cy : Nat

/-- The draw callback `OBSRender` run once per frame, in order. -/
def renderEach : List Frame → OBSProjector → OBSProjector × List Call
  | [], p => (p, [])
  | f :: rest, p =>
    let r := OBSProjector.OBSRender f.env p f.cx f.cy
    let r2 := renderEach rest r.state
    (r2.1, r.calls ++ r2.2)

/-- The calls of a whole life: construction, the frames, destruction. -/
def lifeCalls (env : Env) (g : Globals) (this : Nat) (widget : QWidget) (newMultiview : Nat)
    (source_ : OBSSource) (monitor : Int) (type_ : ProjectorType) (frames : List Frame)
    (envEnd : Env) : List Call :=
  let c := OBSProjector.ctor env g this widget newMultiview source_ monitor type_
  let r := renderEach frames c.state.2
  let d := OBSProjector.dtor envEnd c.state.1 this r.1
  c.calls ++ r.2 ++ d.calls

/-- The operations of the projector that obtain the source from the weak
reference, each with its inputs. -/
inductive Operation
  | construct (env : Env) (g : Globals) (this : Nat) (widget : QWidget) (newMultiview : Nat)
      (source_ : OBSSource) (monitor : Int) (type_ : ProjectorType)
  | destruct (env : Env) (g : Globals) (this : Nat) (p : OBSProjector)
  | render (env : Env) (p : OBSProjector) (cx cy : Nat)
  | resizeToContent (env : Env) (p : OBSProjector)
  | getTargetSize (env : Env) (p : OBSProjector)
  | openFullScreen (env : Env) (p : OBSProjector) (monitor : Int)
  | openWindowed (env : Env) (p : OBSProjector)

/-- The calls an operation makes. -/
def Operation.calls : Operation → List Call
  | .construct env g this widget newMultiview source_ monitor type_ =>
    (OBSProjector.ctor env g this widget newMultiview source_ monitor type_).calls
  | .destruct env g this p => (OBSProjector.dtor env g this p).calls
  | .render env p cx cy => (OBSProjector.OBSRender env p cx cy).calls
  | .resizeToContent env p => (OBSProjector.ResizeToContent env p).calls
  | .getTargetSize env p => (OBSProjector.GetTargetSize env p).calls
  | .openFullScreen env p monitor => (OBSProjector.OpenFullScreenProjector env p monitor).calls
  | .openWindowed env p => (OBSProjector.OpenWindowedProjector env p).calls

/-! ## Sample values -/

/-- A configuration with every switch on. -/
def sampleConfig : Config :=
  { ProjectorAlwaysOnTop := true, HideProjectorFrame := true, HideProjectorCursor := true,
    MultiviewLayout := 0, MultiviewDrawNames := true, MultiviewDrawAreas := true,
    MultiviewMouseSwitch := true, TransitionOnDoubleClick := true }

/-- A window system that moves the content box of a framed window 24 down to
make room for the title bar, and puts a frameless window 24 up. -/
def samplePlaceContentBox (flags : Nat) (r : QRect) : QRect :=
  if flags &&& Qt.FramelessWindowHint ≠ 0 then { r with y1 := r.y1 - 24, y2 := r.y2 - 24 }
  else { r with y1 := r.y1 + 24, y2 := r.y2 + 24 }

/-- Two monitors side by side. -/
def sampleScreens : List QScreen :=
  [{ name := 0, geometry := QRect.ofSize 0 0 1920 1080 },
   { name := 1, geometry := QRect.ofSize 1920 0 2560 1440 }]

/-- An application in studio mode: scene 1 in the preview, scene 2 on program,
every source alive and 1280 by 720, a multiview showing scene 3 everywhere. -/
def sampleEnv : Env :=
  { config := sampleConfig, placeContentBox := samplePlaceContentBox,
    screens := sampleScreens, alive := fun _ => true,
    sourceName := fun _ => "scene", sourceWidth := fun _ => 1280,
    sourceHeight := fun _ => 720, base_width := 1920, base_height := 1080,
    QTStr := fun key => key, scaleAndCenterPos := fun _ _ _ _ => (0, 0),
    previewProgramMode := true, currentSceneSource := some 1, programSource := some 2,
    sourceByPosition := fun _ _ _ => some 3 }

/-- The same application with studio mode switched off. -/
def sampleEnvNoStudio : Env := { sampleEnv with previewProgramMode := false }

/-- A fresh top-level widget. -/
def sampleWidget : QWidget :=
  { crect := QRect.ofSize 100 50 640 480,
    windowState := { minimized := false, maximized := false, fullScreen := false },
    windowFlags := Qt.Window, cursor := CursorShape.ArrowCursor, windowTitle := "",
    visible := false }

/-- The statics before any projector exists, with both mouse flags off. -/
def sampleGlobals : Globals :=
  { multiviewProjectors := [], updatingMultiview := false, mouseSwitching := false,
    transitionOnDoubleClick := false }

/-- The statics after a multiview projector has read the sample configuration. -/
def sampleGlobalsSwitching : Globals :=
  { multiviewProjectors := [], updatingMultiview := false, mouseSwitching := true,
    transitionOnDoubleClick := true }

/-- A windowed, ready projector of the given type showing the given source;
a multiview projector owns the multiview object at address 9. -/
def sampleProjector (type : ProjectorType) (weakSource : OBSWeakSource) : OBSProjector :=
  { widget := sampleWidget, weakSource := weakSource, hideFrame := false,
    isAlwaysOnTop := false, isAlwaysOnTopOverridden := false, savedMonitor := -1,
    type := type, multiview := if type = ProjectorType.Multiview then some 9 else none,
    ready := true, prevGeometry := QRect.null, screen := none,
    onMousePressWindowPosition := ⟨100, 50⟩, onMousePressMouseOffset := ⟨10, 20⟩ }

/-- The statics with two multiview projectors registered, at addresses 7 and 8. -/
def sampleGlobalsTwo : Globals :=
  { multiviewProjectors := [7, 8], updatingMultiview := false, mouseSwitching := false,
    transitionOnDoubleClick := false }

/-- A heap in which every address holds a multiview projector. -/
def sampleDeref : Nat → OBSProjector := fun _ => sampleProjector ProjectorType.Multiview none

/-- A left double click at (5, 5). -/
def sampleDoubleClick : QMouseEvent := { button := 1, buttons := 1, pos := ⟨5, 5⟩ }

/-- Two frames of 1920 by 1080: the first drawn in studio mode with scene 1
current, the second after studio mode was switched off. -/
def sampleFrames : List Frame :=
  [{ env := sampleEnv, cx := 1920, cy := 1080 },
   { env := sampleEnvNoStudio, cx := 1920, cy := 1080 }]

/-! ## Lemmas -/

theorem wrapInt_of_isInt32 {v : Int} (h : isInt32 v) : wrapInt v = v := by
  unfold isInt32 at h
  unfold wrapInt
  omega

theorem wrapInt_drag (p e w o : Int) :
    wrapInt (w + wrapInt (wrapInt (p + e) - wrapInt (w + o))) = wrapInt (wrapInt (p + e) - o) := by
  unfold wrapInt
  omega

theorem wrapInt_add_sub_cancel (p o : Int) (h : isInt32 p) :
    wrapInt (wrapInt (p + o) - o) = p := by
  unfold isInt32 at h
  unfold wrapInt
  omega

theorem wrapInt_add_sub_exact (p e o : Int) (h : isInt32 (p + e - o)) :
    wrapInt (wrapInt (p + e) - o) = p + e - o := by
  unfold isInt32 at h
  unfold wrapInt
  omega

theorem QPoint.add_def (a b : QPoint) :
    a + b = ⟨wrapInt (a.xp + b.xp), wrapInt (a.yp + b.yp)⟩ := rfl

theorem QPoint.sub_def (a b : QPoint) :
    a - b = ⟨wrapInt (a.xp - b.xp), wrapInt (a.yp - b.yp)⟩ := rfl

theorem screenAt_isSome (screens : List QScreen) (m : Int) :
    (OBSProjector.screenAt screens m).isSome ↔ (0 ≤ m ∧ m < screens.length) := by
  unfold OBSProjector.screenAt
  by_cases h : m < 0
  · simp [h]
  · simp only [h, if_false]
    rw [List.get?_eq_getElem?, Option.isSome_iff_exists]
    constructor
    · rintro ⟨s, hs⟩
      have := (List.getElem?_eq_some_iff.mp hs).1
      omega
    · rintro ⟨_, h2⟩
      have h3 : m.toNat < screens.length := by omega
      exact ⟨screens[m.toNat], List.getElem?_eq_getElem h3⟩

theorem SetHideCursor_fields (env : Env) (p : OBSProjector) :
    (p.SetHideCursor env).widget.crect = p.widget.crect ∧
    (p.SetHideCursor env).widget.windowState = p.widget.windowState ∧
    (p.SetHideCursor env).savedMonitor = p.savedMonitor ∧
    (p.SetHideCursor env).screen = p.screen ∧
    (p.SetHideCursor env).prevGeometry = p.prevGeometry ∧
    (p.SetHideCursor env).weakSource = p.weakSource ∧
    (p.SetHideCursor env).type = p.type := by
  unfold OBSProjector.SetHideCursor
  split
  · simp
  · dsimp only
    split <;> simp [QWidget.setCursor]

theorem SetMonitor_some (env : Env) (p q : OBSProjector) (m : Int)
    (h : p.SetMonitor env m = some q) :
    ∃ s, OBSProjector.screenAt env.screens m = some s ∧ q.savedMonitor = m ∧
      q.screen = some s ∧ q.widget.crect = s.geometry ∧ q.widget.windowState.fullScreen = true ∧
      q.prevGeometry = p.prevGeometry ∧ q.weakSource = p.weakSource ∧ q.type = p.type := by
  unfold OBSProjector.SetMonitor at h
  dsimp only at h
  split at h
  · exact absurd h (by simp)
  · rename_i s hs
    refine ⟨s, hs, ?_⟩
    have hq := Option.some.inj h
    subst hq
    simp [SetHideCursor_fields, QWidget.showFullScreen, QWidget.setGeometry]

theorem UpdateProjectorTitle_fields (env : Env) (p : OBSProjector) (name : String) :
    (p.UpdateProjectorTitle env name).widget.crect = p.widget.crect ∧
    (p.UpdateProjectorTitle env name).widget.windowState = p.widget.windowState ∧
    (p.UpdateProjectorTitle env name).savedMonitor = p.savedMonitor ∧
    (p.UpdateProjectorTitle env name).screen = p.screen ∧
    (p.UpdateProjectorTitle env name).prevGeometry = p.prevGeometry ∧
    (p.UpdateProjectorTitle env name).weakSource = p.weakSource ∧
    (p.UpdateProjectorTitle env name).type = p.type := by
  simp [OBSProjector.UpdateProjectorTitle, QWidget.setWindowTitle]

theorem OpenFullScreenProjector_valid (env : Env) (p : OBSProjector) (m : Int)
    (hv : 0 ≤ m ∧ m < env.screens.length) :
    (p.OpenFullScreenProjector env m).fault = none ∧
    (p.OpenFullScreenProjector env m).state.widget.isFullScreen = true ∧
    (p.OpenFullScreenProjector env m).state.prevGeometry =
      (if p.widget.isFullScreen then p.prevGeometry else p.widget.geometry) := by
  unfold OBSProjector.OpenFullScreenProjector
  dsimp only
  split
  · rename_i h
    have hs := (screenAt_isSome env.screens m).mpr hv
    unfold OBSProjector.SetMonitor at h
    dsimp only at h
    split at h
    · rename_i h2
      rw [h2] at hs
      exact absurd hs (by simp)
    · exact absurd h (by simp)
  · rename_i q hq
    obtain ⟨s, -, -, -, -, hfs, hprev, -, -⟩ := SetMonitor_some env _ q m hq
    refine ⟨rfl, ?_, ?_⟩
    · simp [QWidget.isFullScreen, UpdateProjectorTitle_fields, hfs]
    · simp only [UpdateProjectorTitle_fields, hprev]
      cases hfull : p.widget.isFullScreen <;> simp

theorem openFullScreenEach_fullscreen (env : Env) (monitors : List Int)
    (hv : ∀ m ∈ monitors, 0 ≤ m ∧ m < env.screens.length) (p : OBSProjector)
    (hf : p.widget.isFullScreen = true) :
    (openFullScreenEach env monitors p).fault = none ∧
    (openFullScreenEach env monitors p).state.prevGeometry = p.prevGeometry := by
  induction monitors generalizing p with
  | nil => simp [openFullScreenEach]
  | cons m rest ih =>
    obtain ⟨h1, h2, h3⟩ := OpenFullScreenProjector_valid env p m (hv m (List.mem_cons_self _ _))
    have ih2 := ih (fun k hk => hv k (List.mem_cons_of_mem _ hk)) _ h2
    unfold openFullScreenEach
    simp only [h1]
    refine ⟨ih2.1, ?_⟩
    rw [ih2.2, h3, hf]
    simp

theorem SetMonitor_isSome (env : Env) (p : OBSProjector) (m : Int) :
    (p.SetMonitor env m).isSome ↔ (0 ≤ m ∧ m < env.screens.length) := by
  unfold OBSProjector.SetMonitor
  dsimp only
  rw [← screenAt_isSome]
  cases OBSProjector.screenAt env.screens m <;> simp

theorem SetMonitor_ne_none (env : Env) (p : OBSProjector) (m : Int)
    (hv : 0 ≤ m ∧ m < env.screens.length) : p.SetMonitor env m ≠ none := by
  intro h
  have := (SetMonitor_isSome env p m).mpr hv
  rw [h] at this
  exact absurd this (by simp)

theorem SetMonitor_eq_none (env : Env) (p : OBSProjector) (m : Int)
    (hv : ¬ (0 ≤ m ∧ m < env.screens.length)) : p.SetMonitor env m = none := by
  have := (SetMonitor_isSome env p m).not.mpr hv
  simpa using this

theorem UpdateProjectorTitle_more (env : Env) (p : OBSProjector) (name : String) :
    (p.UpdateProjectorTitle env name).ready = p.ready ∧
    (p.UpdateProjectorTitle env name).multiview = p.multiview ∧
    (p.UpdateProjectorTitle env name).hideFrame = p.hideFrame := by
  simp [OBSProjector.UpdateProjectorTitle]

/-- The constructor, when the monitor argument is `-1` or a valid index: the
fields it leaves and the calls it makes. -/
theorem ctor_ok (env : Env) (g : Globals) (this : Nat) (widget : QWidget) (newMultiview : Nat)
    (source_ : OBSSource) (monitor : Int) (type_ : ProjectorType)
    (hm : monitor = -1 ∨ (0 ≤ monitor ∧ monitor < env.screens.length)) :
    (OBSProjector.ctor env g this widget newMultiview source_ monitor type_).fault = none ∧
    (OBSProjector.ctor env g this widget newMultiview source_ monitor type_).state.2.savedMonitor
      = monitor ∧
    (OBSProjector.ctor env g this widget newMultiview source_ monitor type_).state.2.weakSource
      = source_ ∧
    (OBSProjector.ctor env g this widget newMultiview source_ monitor type_).state.2.type
      = type_ ∧
    (OBSProjector.ctor env g this widget newMultiview source_ monitor type_).state.2.ready
      = true ∧
    (OBSProjector.ctor env g this widget newMultiview source_ monitor type_).calls =
      [Call.obs_source_get_signal_handler (OBSGetStrongRef env source_),
       Call.destroyedSignal_Connect,
       Call.obs_source_get_name (OBSGetStrongRef env source_)] ++
      (if type_ = ProjectorType.Multiview then
        [Call.Multiview_new newMultiview,
         Call.Multiview_Update (some newMultiview) env.config.MultiviewLayout
           env.config.MultiviewDrawNames env.config.MultiviewDrawAreas]
       else []) ++
      [Call.IncrementSleepInhibition] ++
      (if (OBSGetStrongRef env source_).isSome then
        [Call.obs_source_inc_showing (OBSGetStrongRef env source_)] else []) := by
  by_cases h1 : monitor = -1
  · subst h1
    unfold OBSProjector.ctor
    by_cases ht : type_ = ProjectorType.Multiview
    · simp [ht, UpdateProjectorTitle_fields, OBSProjector.UpdateMultiview,
        OBSProjector.GetSource, OBSGetWeakRef]
    · simp [ht, UpdateProjectorTitle_fields, OBSProjector.UpdateMultiview,
        OBSProjector.GetSource, OBSGetWeakRef]
  · have hv := hm.resolve_left h1
    unfold OBSProjector.ctor
    dsimp only
    rw [if_neg h1]
    split
    · rename_i hnone
      exact absurd hnone (SetMonitor_ne_none env _ monitor hv)
    · rename_i q hq
      obtain ⟨s, -, hq1, -, -, -, -, hq2, hq3⟩ := SetMonitor_some env _ q monitor hq
      dsimp only at hq2 hq3
      by_cases ht : type_ = ProjectorType.Multiview
      · simp [ht, hq1, hq2, hq3, UpdateProjectorTitle_fields, OBSProjector.UpdateMultiview,
          OBSProjector.GetSource, OBSGetWeakRef]
      · simp [ht, hq1, hq2, hq3, UpdateProjectorTitle_fields, OBSProjector.UpdateMultiview,
          OBSProjector.GetSource, OBSGetWeakRef]

theorem ctor_fault (env : Env) (g : Globals) (this : Nat) (widget : QWidget)
    (newMultiview : Nat) (source_ : OBSSource) (monitor : Int) (type_ : ProjectorType)
    (h1 : monitor ≠ -1) (hv : ¬ (0 ≤ monitor ∧ monitor < env.screens.length)) :
    (OBSProjector.ctor env g this widget newMultiview source_ monitor type_).fault
      = some Fault.screenIndexOutOfRange := by
  unfold OBSProjector.ctor
  dsimp only
  rw [if_neg h1, SetMonitor_eq_none env _ monitor hv]

theorem QRect.setSize_size (r : QRect) (w h : Int) :
    (r.setSize w h).width = w ∧ (r.setSize w h).height = h := by
  constructor
  · simp only [QRect.setSize, QRect.width]
    omega
  · simp only [QRect.setSize, QRect.height]
    omega

theorem ctor_windowed_size (env : Env) (g : Globals) (this : Nat) (widget : QWidget)
    (newMultiview : Nat) (source_ : OBSSource) (type_ : ProjectorType) :
    (OBSProjector.ctor env g this widget newMultiview source_ (-1) type_).state.2.widget.size
      = (480, 270) := by
  unfold OBSProjector.ctor
  by_cases ht : type_ = ProjectorType.Multiview
  · simp [ht, UpdateProjectorTitle_fields, OBSProjector.UpdateMultiview, QWidget.size,
      QWidget.show_, QWidget.resize, QRect.setSize_size]
  · simp [ht, UpdateProjectorTitle_fields, OBSProjector.UpdateMultiview, QWidget.size,
      QWidget.show_, QWidget.resize, QRect.setSize_size]

/-- The calls of `OBSRender` on a ready projector whose weak reference
resolves to no source. -/
theorem OBSRender_calls_absent (env : Env) (window : OBSProjector) (cx cy : Nat)
    (hready : window.ready = true) (hsrc : window.GetSource env = none) :
    (OBSProjector.OBSRender env window cx cy).calls =
      [Call.obs_get_video_info,
       Call.GetScaleAndCenterPos env.base_width env.base_height cx cy,
       Call.startRegion env.base_width env.base_height] ++
      (if window.type = ProjectorType.Preview ∧ env.previewProgramMode = true ∧
          env.currentSceneSource ≠ none then
        [Call.obs_source_dec_showing none, Call.obs_source_inc_showing env.currentSceneSource,
         Call.obs_source_video_render env.currentSceneSource]
       else [Call.obs_render_main_texture]) ++
      [Call.endRegion] := by
  unfold OBSProjector.OBSRender
  simp only [hready, hsrc]
  by_cases ht : window.type = ProjectorType.Preview
  · cases hmode : env.previewProgramMode
    · simp [ht]
    · cases hcur : env.currentSceneSource <;> simp [ht]
  · simp [ht]

theorem ctor_fault_calls (env : Env) (g : Globals) (this : Nat) (widget : QWidget)
    (newMultiview : Nat) (source_ : OBSSource) (monitor : Int) (type_ : ProjectorType)
    (h1 : monitor ≠ -1) (hv : ¬ (0 ≤ monitor ∧ monitor < env.screens.length)) :
    (OBSProjector.ctor env g this widget newMultiview source_ monitor type_).calls =
      [Call.obs_source_get_signal_handler (OBSGetStrongRef env source_),
       Call.destroyedSignal_Connect] := by
  unfold OBSProjector.ctor
  dsimp only
  rw [if_neg h1, SetMonitor_eq_none env _ monitor hv]
  simp [OBSProjector.GetSource, OBSGetWeakRef]

theorem ctor_guarded (env : Env) (g : Globals) (this : Nat) (widget : QWidget)
    (newMultiview : Nat) (source_ : OBSSource) (monitor : Int) (type_ : ProjectorType) :
    Call.obs_source_get_signal_handler (OBSGetStrongRef env source_) ∈
      (OBSProjector.ctor env g this widget newMultiview source_ monitor type_).calls ∧
    Call.obs_source_get_width none ∉
      (OBSProjector.ctor env g this widget newMultiview source_ monitor type_).calls ∧
    Call.obs_source_get_height none ∉
      (OBSProjector.ctor env g this widget newMultiview source_ monitor type_).calls ∧
    Call.obs_source_video_render none ∉
      (OBSProjector.ctor env g this widget newMultiview source_ monitor type_).calls ∧
    Call.obs_source_inc_showing none ∉
      (OBSProjector.ctor env g this widget newMultiview source_ monitor type_).calls := by
  by_cases hm : monitor = -1 ∨ (0 ≤ monitor ∧ monitor < env.screens.length)
  · rw [(ctor_ok env g this widget newMultiview source_ monitor type_ hm).2.2.2.2.2]
    cases hs : OBSGetStrongRef env source_ <;> by_cases ht : type_ = ProjectorType.Multiview <;>
      simp [ht]
  · rw [not_or] at hm
    rw [ctor_fault_calls env g this widget newMultiview source_ monitor type_ hm.1 hm.2]
    simp

theorem dtor_guarded (env : Env) (g : Globals) (this : Nat) (p : OBSProjector) :
    Call.obs_source_get_width none ∉ (OBSProjector.dtor env g this p).calls ∧
    Call.obs_source_get_height none ∉ (OBSProjector.dtor env g this p).calls ∧
    Call.obs_source_video_render none ∉ (OBSProjector.dtor env g this p).calls ∧
    Call.obs_source_dec_showing none ∉ (OBSProjector.dtor env g this p).calls := by
  unfold OBSProjector.dtor
  cases hs : p.GetSource env <;> cases ht : (p.type == ProjectorType.Multiview) <;> simp

theorem OBSRender_guarded (env : Env) (window : OBSProjector) (cx cy : Nat) :
    Call.obs_source_get_width none ∉ (OBSProjector.OBSRender env window cx cy).calls ∧
    Call.obs_source_get_height none ∉ (OBSProjector.OBSRender env window cx cy).calls ∧
    Call.obs_source_video_render none ∉ (OBSProjector.OBSRender env window cx cy).calls := by
  unfold OBSProjector.OBSRender
  cases hr : window.ready
  · simp
  · cases hs : window.GetSource env <;> cases hc : env.currentSceneSource <;>
      cases hmode : env.previewProgramMode <;>
      by_cases ht : window.type = ProjectorType.Preview <;>
      first
        | (simp [ht]; done)
        | (simp [ht]; split <;> simp)

/-- The left-click path of `mousePressEvent` asks the multiview for a source
on multiview projectors only. -/
theorem mousePressEvent_multiview_only (env : Env) (g : Globals) (p : OBSProjector)
    (event : QMouseEvent) (mv : Option Nat) (x y : Int)
    (h : Call.Multiview_GetSourceByPosition mv x y ∈ (p.mousePressEvent env g event).calls) :
    p.type = ProjectorType.Multiview := by
  unfold OBSProjector.mousePressEvent at h
  by_contra ht
  by_cases hr : event.button = Qt.RightButton
  · simp [hr] at h
  · by_cases hl : event.button = Qt.LeftButton
    · simp [hl, ht, Qt.LeftButton, Qt.RightButton] at h
    · simp [hr, hl] at h

theorem UpdateMultiview_run (env : Env) (g : Globals) (p : OBSProjector)
    (h : p.multiview.isSome = true) :
    (p.UpdateMultiview env g).fault = none ∧
    (p.UpdateMultiview env g).state.updatingMultiview = g.updatingMultiview ∧
    (p.UpdateMultiview env g).state.multiviewProjectors = g.multiviewProjectors := by
  simp [OBSProjector.UpdateMultiview, h]

/-- The loop over the multiview projectors: it runs to the end, makes one pass
per list entry in order, and no pass changes `updatingMultiview`. -/
theorem updateEach_history (env : Env) (deref : Nat → OBSProjector) (list : List Nat)
    (g : Globals) (h : ∀ q ∈ list, (deref q).multiview.isSome = true) :
    (OBSProjector.updateEach env deref list g).1.fault = none ∧
    (OBSProjector.updateEach env deref list g).2.map OBSProjector.UpdateStep.projector = list ∧
    (∀ s ∈ (OBSProjector.updateEach env deref list g).2,
      s.before.updatingMultiview = g.updatingMultiview ∧
      s.after.updatingMultiview = g.updatingMultiview) ∧
    (OBSProjector.updateEach env deref list g).1.state.updatingMultiview = g.updatingMultiview ∧
    (OBSProjector.updateEach env deref list g).1.calls =
      list.map (fun q => Call.Multiview_Update (deref q).multiview env.config.MultiviewLayout
        env.config.MultiviewDrawNames env.config.MultiviewDrawAreas) := by
  induction list generalizing g with
  | nil => simp [OBSProjector.updateEach]
  | cons q rest ih =>
    obtain ⟨h1, h2, -⟩ := UpdateMultiview_run env g (deref q) (h q (List.mem_cons_self _ _))
    obtain ⟨i1, i2, i3, i4, i5⟩ := ih ((deref q).UpdateMultiview env g).state
      (fun k hk => h k (List.mem_cons_of_mem _ hk))
    unfold OBSProjector.updateEach
    simp only [h1]
    refine ⟨i1, ?_, ?_, ?_, ?_⟩
    · simp [i2]
    · intro s hs
      rcases List.mem_cons.mp hs with hs | hs
      · subst hs
        exact ⟨rfl, h2⟩
      · obtain ⟨j1, j2⟩ := i3 s hs
        exact ⟨j1.trans h2, j2.trans h2⟩
    · exact i4.trans h2
    · rw [i5]
      simp [OBSProjector.UpdateMultiview]

/-- A left press stores the window position and the event position. -/
theorem mousePressEvent_stores (env : Env) (g : Globals) (p : OBSProjector)
    (event : QMouseEvent) (hl : event.button = Qt.LeftButton) :
    (p.mousePressEvent env g event).state.onMousePressWindowPosition = p.widget.pos ∧
    (p.mousePressEvent env g event).state.onMousePressMouseOffset = event.pos ∧
    (p.mousePressEvent env g event).state.widget = p.widget := by
  unfold OBSProjector.mousePressEvent
  simp only [hl, Qt.LeftButton, Qt.RightButton]
  by_cases ht : p.type = ProjectorType.Multiview
  · cases hms : g.mouseSwitching
    · simp [ht]
    · cases hmv : p.multiview with
      | none => simp [ht]
      | some mv =>
        cases hsrc : env.sourceByPosition mv event.pos.xp event.pos.yp with
        | none => simp [ht, hsrc]
        | some s =>
          by_cases hc : env.currentSceneSource = some s
          · simp [ht, hsrc, hc]
          · simp [ht, hsrc, hc]
  · simp [ht]

/-- The constructor registers a projector in the multiview list only together
with a multiview object of its own. -/
theorem ctor_registers_with_multiview (env : Env) (g : Globals) (this : Nat)
    (widget : QWidget) (newMultiview : Nat) (source_ : OBSSource) (type_ : ProjectorType) :
    (OBSProjector.ctor env g this widget newMultiview source_ (-1) type_).state.1.multiviewProjectors
      = (if type_ = ProjectorType.Multiview then g.multiviewProjectors ++ [this]
         else g.multiviewProjectors) ∧
    (OBSProjector.ctor env g this widget newMultiview source_ (-1) type_).state.2.multiview
      = (if type_ = ProjectorType.Multiview then some newMultiview else none) := by
  unfold OBSProjector.ctor
  by_cases ht : type_ = ProjectorType.Multiview
  · simp [ht, UpdateProjectorTitle_fields, UpdateProjectorTitle_more,
      OBSProjector.UpdateMultiview]
  · simp [ht, UpdateProjectorTitle_fields, UpdateProjectorTitle_more,
      OBSProjector.UpdateMultiview]

/-- In the sample window system the flag change alone moves the content box:
without the restore in `SetHideFrame` the geometry would not be kept. -/
theorem setWindowFlags_moves_sample_box :
    (sampleWidget.setWindowFlags sampleEnv.placeContentBox Qt.FramelessWindowHint).geometry
      = QRect.ofSize 100 26 640 480 ∧
    (sampleWidget.setWindowFlags sampleEnv.placeContentBox Qt.FramelessWindowHint).geometry
      ≠ sampleWidget.geometry := by
  decide

/-! ## Claims -/

/-- C1: a windowed projector with a non-null geometry `g` that is sent through
a non-empty run of `OpenFullScreenProjector` slots with valid monitor indices
and then through `OpenWindowedProjector` has geometry `g` again and
`GetMonitor() = -1`; none of the slots leaves the defined behaviour. -/
theorem windowed_restores_cached_geometry (env envW : Env) (p : OBSProjector) (g : QRect)
    (monitors : List Int)
    (hwin : p.widget.isFullScreen = false) (hgeo : p.widget.geometry = g)
    (hnull : g.isNull = false) (hne : monitors ≠ [])
    (hv : ∀ m ∈ monitors, 0 ≤ m ∧ m < env.screens.length) :
    (openFullScreenEach env monitors p).fault = none ∧
    ((openFullScreenEach env monitors p).state.OpenWindowedProjector envW).state.widget.geometry
      = g ∧
    ((openFullScreenEach env monitors p).state.OpenWindowedProjector envW).state.GetMonitor
      = -1 := by
  cases monitors with
  | nil => exact absurd rfl hne
  | cons m rest =>
    obtain ⟨h1, h2, h3⟩ := OpenFullScreenProjector_valid env p m (hv m (List.mem_cons_self _ _))
    obtain ⟨h4, h5⟩ := openFullScreenEach_fullscreen env rest
      (fun k hk => hv k (List.mem_cons_of_mem _ hk)) _ h2
    have hprev : (openFullScreenEach env (m :: rest) p).state.prevGeometry = g := by
      unfold openFullScreenEach
      simp only [h1]
      rw [h5, h3, hwin]
      simpa using hgeo
    have hfault : (openFullScreenEach env (m :: rest) p).fault = none := by
      unfold openFullScreenEach
      simp only [h1]
      exact h4
    refine ⟨hfault, ?_, ?_⟩
    · simp [OBSProjector.OpenWindowedProjector, UpdateProjectorTitle_fields, QWidget.geometry,
        QWidget.setGeometry, QWidget.setCursor, QWidget.showNormal, QWidget.showFullScreen,
        hprev, hnull]
    · simp [OBSProjector.OpenWindowedProjector, UpdateProjectorTitle_fields,
        OBSProjector.GetMonitor]

/-- Witness for C1: fullscreen on monitor 1, then on monitor 0, then windowed
again, starting from the sample window at (100, 50) of size 640 by 480. -/
theorem windowed_restores_cached_geometry_witness :
    (openFullScreenEach sampleEnv [1, 0] (sampleProjector ProjectorType.Scene (some 1))).fault
      = none ∧
    ((openFullScreenEach sampleEnv [1, 0]
      (sampleProjector ProjectorType.Scene (some 1))).state.OpenWindowedProjector
        sampleEnvNoStudio).state.widget.geometry = QRect.ofSize 100 50 640 480 ∧
    ((openFullScreenEach sampleEnv [1, 0]
      (sampleProjector ProjectorType.Scene (some 1))).state.OpenWindowedProjector
        sampleEnvNoStudio).state.GetMonitor = -1 :=
  windowed_restores_cached_geometry sampleEnv sampleEnvNoStudio
    (sampleProjector ProjectorType.Scene (some 1)) (QRect.ofSize 100 50 640 480) [1, 0]
    rfl rfl (by decide) (by simp) (by decide)

/-- C4: `SetMonitor(m)` is defined exactly when `0 <= m < n` for the screen
list of length `n`; when it is defined, `GetMonitor()` is `m`, the stored
screen is `screens[m]` and the window geometry is the geometry of that screen.  The
constructor with a valid monitor `m` gives `GetMonitor() = m`, with `-1` it
gives `GetMonitor() = -1` and size 480 by 270, and with any other index it
ends in the out-of-range lookup. -/
theorem SetMonitor_unguarded (env : Env) (p : OBSProjector) (m : Int) (g : Globals)
    (this : Nat) (widget : QWidget) (newMultiview : Nat) (source_ : OBSSource)
    (type_ : ProjectorType) :
    ((p.SetMonitor env m).isSome ↔ (0 ≤ m ∧ m < env.screens.length)) ∧
    (∀ q, p.SetMonitor env m = some q →
      q.GetMonitor = m ∧ q.screen = env.screens.get? m.toNat ∧
      ∃ s, q.screen = some s ∧ q.widget.geometry = s.geometry) ∧
    ((0 ≤ m ∧ m < env.screens.length) →
      (OBSProjector.ctor env g this widget newMultiview source_ m type_).fault = none ∧
      (OBSProjector.ctor env g this widget newMultiview source_ m type_).state.2.GetMonitor
        = m) ∧
    ((OBSProjector.ctor env g this widget newMultiview source_ (-1) type_).fault = none ∧
      (OBSProjector.ctor env g this widget newMultiview source_ (-1) type_).state.2.GetMonitor
        = -1 ∧
      (OBSProjector.ctor env g this widget newMultiview source_ (-1) type_).state.2.widget.size
        = (480, 270)) ∧
    (m ≠ -1 → ¬ (0 ≤ m ∧ m < env.screens.length) →
      (OBSProjector.ctor env g this widget newMultiview source_ m type_).fault
        = some Fault.screenIndexOutOfRange) := by
  refine ⟨?_, ?_, ?_, ?_, ?_⟩
  · unfold OBSProjector.SetMonitor
    dsimp only
    rw [← screenAt_isSome]
    cases OBSProjector.screenAt env.screens m <;> simp
  · intro q hq
    obtain ⟨s, hs, h1, h2, h3, -⟩ := SetMonitor_some env p q m hq
    have hv : 0 ≤ m := by
      by_contra hneg
      simp [OBSProjector.screenAt, not_le.mp hneg] at hs
    have hs2 : env.screens.get? m.toNat = some s := by
      simpa [OBSProjector.screenAt, not_lt.mpr hv] using hs
    exact ⟨h1, by rw [h2, hs2], s, h2, h3⟩
  · intro hv
    obtain ⟨h1, h2, -⟩ := ctor_ok env g this widget newMultiview source_ m type_ (Or.inr hv)
    exact ⟨h1, h2⟩
  · obtain ⟨h1, h2, -⟩ := ctor_ok env g this widget newMultiview source_ (-1) type_
      (Or.inl rfl)
    exact ⟨h1, h2, ctor_windowed_size env g this widget newMultiview source_ type_⟩
  · intro h1 hv
    exact ctor_fault env g this widget newMultiview source_ m type_ h1 hv

/-- Witness for C4: monitor 1 of the two sample screens. -/
theorem SetMonitor_unguarded_witness :
    ((sampleProjector ProjectorType.Scene (some 1)).SetMonitor sampleEnv 1).isSome = true ∧
    (OBSProjector.ctor sampleEnv sampleGlobals 7 sampleWidget 9 (some 1) 1
      ProjectorType.Scene).state.2.GetMonitor = 1 ∧
    (OBSProjector.ctor sampleEnv sampleGlobals 7 sampleWidget 9 (some 1) 2
      ProjectorType.Scene).fault = some Fault.screenIndexOutOfRange :=
  have h := SetMonitor_unguarded sampleEnv (sampleProjector ProjectorType.Scene (some 1)) 1
    sampleGlobals 7 sampleWidget 9 (some 1) ProjectorType.Scene
  have h2 := SetMonitor_unguarded sampleEnv (sampleProjector ProjectorType.Scene (some 1)) 2
    sampleGlobals 7 sampleWidget 9 (some 1) ProjectorType.Scene
  ⟨h.1.mpr (by decide), (h.2.2.1 (by decide)).2, h2.2.2.2.2 (by decide) (by decide)⟩

/-- C7: `SetHideFrame(h)` leaves the window geometry as it was and stores `h`
in `hideFrame`, for every projector, both values of `h` and every way the
window system may place the content box when the flags change: the box read
before `setWindowFlags` is set back after it. -/
theorem SetHideFrame_keeps_content_box (env : Env) (p : OBSProjector) (h : Bool) :
    (p.SetHideFrame env h).widget.geometry = p.widget.geometry ∧
    (p.SetHideFrame env h).hideFrame = h := by
  cases h <;>
    simp [OBSProjector.SetHideFrame, QWidget.geometry, QWidget.setGeometry, QWidget.showNormal]

/-- C8: with the left button held, `mouseMoveEvent` moves the window to
`p + e - o` in the arithmetic of `QPoint` (`p` the window position, `e` the
event position, `o` the stored press offset; the stored press window
position cancels), which is the exact integer point whenever that point has
`int` coordinates; an event at the press offset leaves the window where it
is; with the left button not held the projector is unchanged. -/
theorem mouseMoveEvent_drag (p : OBSProjector) (event : QMouseEvent) :
    (event.buttons &&& Qt.LeftButton ≠ 0 →
      (p.mouseMoveEvent event).widget.pos
        = (p.widget.pos + event.pos) - p.onMousePressMouseOffset ∧
      (QPoint.inRange ⟨p.widget.pos.xp + event.pos.xp - p.onMousePressMouseOffset.xp,
          p.widget.pos.yp + event.pos.yp - p.onMousePressMouseOffset.yp⟩ →
        (p.mouseMoveEvent event).widget.pos
          = ⟨p.widget.pos.xp + event.pos.xp - p.onMousePressMouseOffset.xp,
             p.widget.pos.yp + event.pos.yp - p.onMousePressMouseOffset.yp⟩) ∧
      (event.pos = p.onMousePressMouseOffset → p.widget.pos.inRange →
        (p.mouseMoveEvent event).widget.pos = p.widget.pos)) ∧
    (event.buttons &&& Qt.LeftButton = 0 →
      p.mouseMoveEvent event = p ∧ (p.mouseMoveEvent event).widget.pos = p.widget.pos) := by
  have hmove : event.buttons &&& Qt.LeftButton ≠ 0 →
      (p.mouseMoveEvent event).widget.pos
        = (p.widget.pos + event.pos) - p.onMousePressMouseOffset := by
    intro hl
    unfold OBSProjector.mouseMoveEvent
    rw [if_pos hl]
    simp only [QWidget.pos, QWidget.move, QWidget.setCursor, QRect.moveTo, QRect.topLeft,
      QPoint.add_def, QPoint.sub_def, wrapInt_drag]
  refine ⟨fun hl => ⟨hmove hl, ?_, ?_⟩, ?_⟩
  · intro hr
    rw [hmove hl, QPoint.add_def, QPoint.sub_def]
    simp only [wrapInt_add_sub_exact _ _ _ hr.1, wrapInt_add_sub_exact _ _ _ hr.2]
  · intro he hr
    rw [hmove hl, he, QPoint.add_def, QPoint.sub_def]
    simp only [wrapInt_add_sub_cancel _ _ hr.1, wrapInt_add_sub_cancel _ _ hr.2]
  · intro hl
    have : p.mouseMoveEvent event = p := by
      unfold OBSProjector.mouseMoveEvent
      rw [if_neg (not_not.mpr hl)]
    exact ⟨this, by rw [this]⟩

/-- Witness for C8: the sample window at (100, 50), pressed at (10, 20), is
dragged by an event at (30, 45); an event without the left button moves
nothing. -/
theorem mouseMoveEvent_drag_witness :
    ((sampleProjector ProjectorType.Scene (some 1)).mouseMoveEvent
      { button := 0, buttons := 1, pos := ⟨30, 45⟩ }).widget.pos = ⟨120, 75⟩ ∧
    ((sampleProjector ProjectorType.Scene (some 1)).mouseMoveEvent
      { button := 0, buttons := 1, pos := ⟨10, 20⟩ }).widget.pos = ⟨100, 50⟩ ∧
    ((sampleProjector ProjectorType.Scene (some 1)).mouseMoveEvent
      { button := 0, buttons := 2, pos := ⟨30, 45⟩ }).widget.pos = ⟨100, 50⟩ :=
  ⟨((mouseMoveEvent_drag (sampleProjector ProjectorType.Scene (some 1))
      { button := 0, buttons := 1, pos := ⟨30, 45⟩ }).1 (by decide)).2.1 (by decide),
   ((mouseMoveEvent_drag (sampleProjector ProjectorType.Scene (some 1))
      { button := 0, buttons := 1, pos := ⟨10, 20⟩ }).1 (by decide)).2.2 rfl (by decide),
   ((mouseMoveEvent_drag (sampleProjector ProjectorType.Scene (some 1))
      { button := 0, buttons := 2, pos := ⟨30, 45⟩ }).2 (by decide)).2⟩

/-- C2 as stated fails: a ready Preview projector whose weak reference
resolves to no source, drawn in studio mode while scene 1 is current, calls
`obs_source_video_render` on scene 1 and does not render the main texture. -/
theorem preview_renders_current_scene_counterexample :
    (sampleProjector ProjectorType.Preview none).ready = true ∧
    (sampleProjector ProjectorType.Preview none).GetSource sampleEnv = none ∧
    Call.obs_source_video_render (some 1) ∈
      (OBSProjector.OBSRender sampleEnv (sampleProjector ProjectorType.Preview none)
        1920 1080).calls ∧
    Call.obs_render_main_texture ∉
      (OBSProjector.OBSRender sampleEnv (sampleProjector ProjectorType.Preview none)
        1920 1080).calls := by
  refine ⟨rfl, rfl, ?_, ?_⟩
  · rw [OBSRender_calls_absent sampleEnv (sampleProjector ProjectorType.Preview none) 1920 1080
      rfl rfl]
    decide
  · rw [OBSRender_calls_absent sampleEnv (sampleProjector ProjectorType.Preview none) 1920 1080
      rfl rfl]
    decide

/-- C2, amended: for every ready projector whose weak reference resolves to no
source, `OBSRender` takes the video base width and height as the target size;
unless the projector is a Preview projector drawn in studio mode with a
current scene, it renders the main texture and never calls
`obs_source_video_render`; in that one case it renders the current scene and
not the main texture. -/
theorem OBSRender_absent_source (env : Env) (window : OBSProjector) (cx cy : Nat)
    (hready : window.ready = true) (hsrc : window.GetSource env = none) :
    (OBSProjector.OBSRender env window cx cy).fault = none ∧
    Call.GetScaleAndCenterPos env.base_width env.base_height cx cy ∈
      (OBSProjector.OBSRender env window cx cy).calls ∧
    (∀ w h, Call.startRegion w h ∈ (OBSProjector.OBSRender env window cx cy).calls ↔
      (w = env.base_width ∧ h = env.base_height)) ∧
    (∀ s, Call.obs_source_get_width s ∉ (OBSProjector.OBSRender env window cx cy).calls ∧
      Call.obs_source_get_height s ∉ (OBSProjector.OBSRender env window cx cy).calls) ∧
    (¬ (window.type = ProjectorType.Preview ∧ env.previewProgramMode = true ∧
          env.currentSceneSource ≠ none) →
      Call.obs_render_main_texture ∈ (OBSProjector.OBSRender env window cx cy).calls ∧
      ∀ s, Call.obs_source_video_render s ∉ (OBSProjector.OBSRender env window cx cy).calls) ∧
    ((window.type = ProjectorType.Preview ∧ env.previewProgramMode = true ∧
          env.currentSceneSource ≠ none) →
      Call.obs_source_video_render env.currentSceneSource ∈
        (OBSProjector.OBSRender env window cx cy).calls ∧
      Call.obs_render_main_texture ∉ (OBSProjector.OBSRender env window cx cy).calls) := by
  rw [OBSRender_calls_absent env window cx cy hready hsrc]
  refine ⟨?_, by simp, ?_, ?_, ?_, ?_⟩
  · unfold OBSProjector.OBSRender
    simp [hready]
  · intro w h
    split <;> simp
  · intro s
    split <;> simp
  · intro hc
    simp [hc]
  · intro hc
    simp [hc]

/-- Witness for C2 (amended): a Scene projector whose source is gone. -/
theorem OBSRender_absent_source_witness :
    Call.obs_render_main_texture ∈
      (OBSProjector.OBSRender sampleEnv (sampleProjector ProjectorType.Scene none)
        1920 1080).calls ∧
    ∀ s, Call.obs_source_video_render s ∉
      (OBSProjector.OBSRender sampleEnv (sampleProjector ProjectorType.Scene none)
        1920 1080).calls :=
  (OBSRender_absent_source sampleEnv (sampleProjector ProjectorType.Scene none) 1920 1080
    rfl rfl).2.2.2.2.1 (by decide)

/-- C3 as stated fails: the constructor of a multiview projector, which is
given no source, passes the null strong reference to
`obs_source_get_signal_handler` and to `obs_source_get_name`. -/
theorem unchecked_source_call_counterexample :
    OBSGetStrongRef sampleEnv (OBSGetWeakRef none) = none ∧
    Call.obs_source_get_signal_handler none ∈
      (Operation.construct sampleEnv sampleGlobals 7 sampleWidget 9 none (-1)
        ProjectorType.Multiview).calls ∧
    Call.obs_source_get_name none ∈
      (Operation.construct sampleEnv sampleGlobals 7 sampleWidget 9 none (-1)
        ProjectorType.Multiview).calls := by
  refine ⟨rfl, ?_, ?_⟩
  · simp only [Operation.calls]
    rw [(ctor_ok sampleEnv sampleGlobals 7 sampleWidget 9 none (-1) ProjectorType.Multiview
      (Or.inl rfl)).2.2.2.2.2]
    simp [OBSGetStrongRef]
  · simp only [Operation.calls]
    rw [(ctor_ok sampleEnv sampleGlobals 7 sampleWidget 9 none (-1) ProjectorType.Multiview
      (Or.inl rfl)).2.2.2.2.2]
    simp [OBSGetStrongRef]

/-- C3, amended: in every operation of the projector that resolves the weak
reference (constructor, destructor, `OBSRender`, `ResizeToContent`,
`GetTargetSize`, `OpenFullScreenProjector`, `OpenWindowedProjector`) the
calls that read the width or height of the source or render it are made with
a non-null source only, and so are `obs_source_inc_showing` in the
constructor and `obs_source_dec_showing` in the destructor;
`obs_source_get_signal_handler` (constructor) and `obs_source_get_name`
(`OpenWindowedProjector`) are called with the strong reference whatever it
is. -/
theorem guarded_source_calls (op : Operation) (env : Env) (g : Globals) (this : Nat)
    (widget : QWidget) (newMultiview : Nat) (source_ : OBSSource) (monitor : Int)
    (type_ : ProjectorType) (p : OBSProjector) :
    Call.obs_source_get_width none ∉ op.calls ∧
    Call.obs_source_get_height none ∉ op.calls ∧
    Call.obs_source_video_render none ∉ op.calls ∧
    Call.obs_source_inc_showing none ∉
      (OBSProjector.ctor env g this widget newMultiview source_ monitor type_).calls ∧
    Call.obs_source_dec_showing none ∉ (OBSProjector.dtor env g this p).calls ∧
    Call.obs_source_get_signal_handler (OBSGetStrongRef env source_) ∈
      (OBSProjector.ctor env g this widget newMultiview source_ monitor type_).calls ∧
    Call.obs_source_get_name (p.GetSource env) ∈ (p.OpenWindowedProjector env).calls := by
  refine ⟨?_, ?_, ?_,
    (ctor_guarded env g this widget newMultiview source_ monitor type_).2.2.2.2,
    (dtor_guarded env g this p).2.2.2,
    (ctor_guarded env g this widget newMultiview source_ monitor type_).1, ?_⟩
  · cases op with
    | construct e g2 t w n s m ty => exact (ctor_guarded e g2 t w n s m ty).2.1
    | destruct e g2 t q => exact (dtor_guarded e g2 t q).1
    | render e q cx cy => exact (OBSRender_guarded e q cx cy).1
    | resizeToContent e q =>
      simp only [Operation.calls, OBSProjector.ResizeToContent]
      cases hs : q.GetSource e <;> simp
    | getTargetSize e q =>
      simp only [Operation.calls, OBSProjector.GetTargetSize]
      cases hs : q.GetSource e <;> simp
    | openFullScreen e q m =>
      simp only [Operation.calls, OBSProjector.OpenFullScreenProjector]
      split <;> simp
    | openWindowed e q => simp [Operation.calls, OBSProjector.OpenWindowedProjector]
  · cases op with
    | construct e g2 t w n s m ty => exact (ctor_guarded e g2 t w n s m ty).2.2.1
    | destruct e g2 t q => exact (dtor_guarded e g2 t q).2.1
    | render e q cx cy => exact (OBSRender_guarded e q cx cy).2.1
    | resizeToContent e q =>
      simp only [Operation.calls, OBSProjector.ResizeToContent]
      cases hs : q.GetSource e <;> simp
    | getTargetSize e q =>
      simp only [Operation.calls, OBSProjector.GetTargetSize]
      cases hs : q.GetSource e <;> simp
    | openFullScreen e q m =>
      simp only [Operation.calls, OBSProjector.OpenFullScreenProjector]
      split <;> simp
    | openWindowed e q => simp [Operation.calls, OBSProjector.OpenWindowedProjector]
  · cases op with
    | construct e g2 t w n s m ty => exact (ctor_guarded e g2 t w n s m ty).2.2.2.1
    | destruct e g2 t q => exact (dtor_guarded e g2 t q).2.2.1
    | render e q cx cy => exact (OBSRender_guarded e q cx cy).2.2
    | resizeToContent e q =>
      simp only [Operation.calls, OBSProjector.ResizeToContent]
      cases hs : q.GetSource e <;> simp
    | getTargetSize e q =>
      simp only [Operation.calls, OBSProjector.GetTargetSize]
      cases hs : q.GetSource e <;> simp
    | openFullScreen e q m =>
      simp only [Operation.calls, OBSProjector.OpenFullScreenProjector]
      split <;> simp
    | openWindowed e q => simp [Operation.calls, OBSProjector.OpenWindowedProjector]
  · simp [OBSProjector.OpenWindowedProjector, OBSProjector.GetSource]

/-- C6: when every listed projector owns a multiview object,
`UpdateMultiviewProjectors` runs to the end, calls `UpdateMultiview` once per
entry of the multiview projector list in order, `updatingMultiview` is true
when each of those calls begins and ends and false on return, and the calls
made are one `Multiview::Update` per entry inside the two graphics sections;
`OBSRenderMultiview` calls `Multiview::Render` only with `updatingMultiview`
false and the projector ready. -/
theorem updatingMultiview_brackets_update (env : Env) (deref : Nat → OBSProjector)
    (g gr : Globals) (window : OBSProjector) (cx cy : Nat)
    (h : ∀ q ∈ g.multiviewProjectors, (deref q).multiview.isSome = true) :
    (OBSProjector.UpdateMultiviewProjectors env deref g).1.fault = none ∧
    (OBSProjector.UpdateMultiviewProjectors env deref g).2.map OBSProjector.UpdateStep.projector
      = g.multiviewProjectors ∧
    (∀ s ∈ (OBSProjector.UpdateMultiviewProjectors env deref g).2,
      s.before.updatingMultiview = true ∧ s.after.updatingMultiview = true) ∧
    (OBSProjector.UpdateMultiviewProjectors env deref g).1.state.updatingMultiview = false ∧
    (OBSProjector.UpdateMultiviewProjectors env deref g).1.calls =
      [Call.obs_enter_graphics, Call.obs_leave_graphics] ++
      g.multiviewProjectors.map (fun q => Call.Multiview_Update (deref q).multiview
        env.config.MultiviewLayout env.config.MultiviewDrawNames
        env.config.MultiviewDrawAreas) ++
      [Call.obs_enter_graphics, Call.obs_leave_graphics] ∧
    (∀ mv rx ry, Call.Multiview_Render mv rx ry ∈
        (OBSProjector.OBSRenderMultiview gr window cx cy).calls →
      gr.updatingMultiview = false ∧ window.ready = true) := by
  obtain ⟨h1, h2, h3, h4, h5⟩ := updateEach_history env deref g.multiviewProjectors
    { g with updatingMultiview := true } h
  unfold OBSProjector.UpdateMultiviewProjectors
  simp only [h1]
  refine ⟨by trivial, h2, h3, by trivial, ?_, ?_⟩
  · rw [h5]
  · intro mv rx ry hmem
    unfold OBSProjector.OBSRenderMultiview at hmem
    cases hu : gr.updatingMultiview <;> cases hr : window.ready <;> simp [hu, hr] at hmem ⊢

/-- Witness for C6: two registered multiview projectors. -/
theorem updatingMultiview_brackets_update_witness :
    (OBSProjector.UpdateMultiviewProjectors sampleEnv sampleDeref sampleGlobalsTwo).2.map
      OBSProjector.UpdateStep.projector = [7, 8] ∧
    (OBSProjector.UpdateMultiviewProjectors sampleEnv sampleDeref
      sampleGlobalsTwo).1.state.updatingMultiview = false :=
  have h := updatingMultiview_brackets_update sampleEnv sampleDeref sampleGlobalsTwo
    sampleGlobalsTwo (sampleProjector ProjectorType.Multiview none) 1920 1080
    (fun _ _ => rfl)
  ⟨h.2.1, h.2.2.2.1⟩

/-- C9 at the failing input: a Source projector, which has no multiview
object, receives a left double click in studio mode while both mouse flags
are on; `mouseDoubleClickEvent` calls `GetSourceByPosition` through the null
`multiview` pointer. -/
theorem mouseDoubleClickEvent_null_multiview :
    (sampleProjector ProjectorType.Source (some 1)).type = ProjectorType.Source ∧
    (sampleProjector ProjectorType.Source (some 1)).multiview = none ∧
    Call.Multiview_GetSourceByPosition none 5 5 ∈
      ((sampleProjector ProjectorType.Source (some 1)).mouseDoubleClickEvent sampleEnv
        sampleGlobalsSwitching sampleDoubleClick).calls ∧
    ((sampleProjector ProjectorType.Source (some 1)).mouseDoubleClickEvent sampleEnv
      sampleGlobalsSwitching sampleDoubleClick).fault = some Fault.nullMultiview := by
  decide

/-- C10 at the failing input: a Preview projector built without a source,
drawn once in studio mode with scene 1 current and once with studio mode off,
then destroyed, has incremented the showing count of scene 1 once and never
decremented it. -/
theorem showing_count_unbalanced :
    (lifeCalls sampleEnv sampleGlobals 7 sampleWidget 9 none (-1) ProjectorType.Preview
      sampleFrames sampleEnvNoStudio).count (Call.obs_source_inc_showing (some 1)) = 1 ∧
    (lifeCalls sampleEnv sampleGlobals 7 sampleWidget 9 none (-1) ProjectorType.Preview
      sampleFrames sampleEnvNoStudio).count (Call.obs_source_dec_showing (some 1)) = 0 := by
  decide

end OBS
